import Mathlib

/-!
Verification development for the tick-driven snake game core (`snake.py`).

The simulation state and its operations are shallowly embedded: each Lean
definition mirrors the corresponding Python method. Coordinates and counters
are `Int` (Python integers); Python floor division and modulus on positive
divisors coincide with `Int` division and `%` (Euclidean), which is what is
used here. Randomness (food / power-up placement, power-up kind) is made
explicit: the sampling stream of the spawner is a parameter `Nat → Int × Int`,
and the single cell a respawn produces is threaded as a parameter into the
movement step. Rendering, particles, sound and high-score persistence are out
of scope and not modelled.
-/

/-- Grid constants from the top of `snake.py`. -/
def WINDOW_WIDTH : Int := 1000

/-- Window height constant. -/
def WINDOW_HEIGHT : Int := 700

/-- Size of one grid cell in pixels. -/
def GRID_SIZE : Int := 20

/-- Grid width in cells: `WINDOW_WIDTH // GRID_SIZE = 50`. -/
def GRID_WIDTH : Int := WINDOW_WIDTH / GRID_SIZE

/-- Grid height in cells: `(WINDOW_HEIGHT - 100) // GRID_SIZE = 30`. -/
def GRID_HEIGHT : Int := (WINDOW_HEIGHT - 100) / GRID_SIZE

/-- The six power-up kinds of `PowerUpType` in `snake.py`. -/
inductive PowerUpType where
  | speedBoost
  | slowDown
  | doublePoints
  | invincibility
  | shrink
  | extend
deriving DecidableEq

/-- The four movement directions of `Direction` in `snake.py`. -/
inductive Direction where
  | up
  | down
  | left
  | right
deriving DecidableEq

/-- Unit delta of each direction, the enum values in `snake.py`. -/
def Direction.delta : Direction → Int × Int
  | .up => (0, -1)
  | .down => (0, 1)
  | .left => (-1, 0)
  | .right => (1, 0)

/-- One pending power-up item on the grid: the dict appended by
`spawn_power_up` (`pos`, `type`, `timer`, `blink`). -/
structure PowerUpItem where
  pos : Int × Int
  type : PowerUpType
  timer : Int
  blink : Int
deriving DecidableEq

/-- The `active_power_ups` dict: at most one remaining-duration per effect
key (`speed_boost`, `slow_down`, `double_points`, `invincibility`); `none`
models absence of the key. -/
structure ActivePowerUps where
  speed_boost : Option Int
  slow_down : Option Int
  double_points : Option Int
  invincibility : Option Int
deriving DecidableEq

/-- The mutable game state of `SnakeGame` relevant to the simulation core
(fields named as in `snake.py`; rendering/particle/high-score fields are
out of scope). The snake list holds the head at index 0. -/
structure GameState where
  snake : List (Int × Int)
  direction : Direction
  food : Int × Int
  score : Int
  level : Int
  speed : Int
  base_speed : Int
  game_over : Bool
  active_power_ups : ActivePowerUps
  power_ups : List PowerUpItem
  power_up_spawn_timer : Int
  move_timer : Int
  move_delay : Int
deriving DecidableEq

/-- Keyboard state sampled by `handle_input`: which arrow keys are down. -/
structure Keys where
  up : Bool
  down : Bool
  left : Bool
  right : Bool
deriving DecidableEq

/-- Embedding of `SnakeGame.handle_input`: the if/elif chain that applies a
pressed arrow key unless it is the direct reverse of the current direction. -/
def handle_input (keys : Keys) (s : GameState) : GameState :=
  if keys.up ∧ s.direction ≠ Direction.down then
    { s with direction := Direction.up }
  else if keys.down ∧ s.direction ≠ Direction.up then
    { s with direction := Direction.down }
  else if keys.left ∧ s.direction ≠ Direction.right then
    { s with direction := Direction.left }
  else if keys.right ∧ s.direction ≠ Direction.left then
    { s with direction := Direction.right }
  else s

/-- The tentative new head cell computed at the top of `update_snake`:
current head plus the direction delta. -/
def new_head_of (s : GameState) : Int × Int :=
  let h := s.snake.headD (0, 0)
  let d := s.direction.delta
  (h.1 + d.1, h.2 + d.2)

/-- The wall-collision test of `update_snake`
(`new_head[0] < 0 or new_head[0] >= GRID_WIDTH or ...`). -/
def out_of_bounds (c : Int × Int) : Bool :=
  c.1 < 0 || GRID_WIDTH ≤ c.1 || c.2 < 0 || GRID_HEIGHT ≤ c.2

/-- The invincibility wrap-around of `update_snake`:
`(new_head[0] % GRID_WIDTH, new_head[1] % GRID_HEIGHT)` (Python modulus on a
positive modulus is Euclidean, as is `Int` `%`). -/
def wrapCell (c : Int × Int) : Int × Int :=
  (c.1 % GRID_WIDTH, c.2 % GRID_HEIGHT)

/-- Embedding of `SnakeGame.activate_power_up`. Timed kinds write their fixed
duration into `active_power_ups`; the speed kinds also transform `move_delay`
in place; `shrink` truncates the snake; `extend` appends three copies of the
tail cell. -/
def activate_power_up (power_type : PowerUpType) (s : GameState) : GameState :=
  match power_type with
  | .speedBoost =>
      { s with active_power_ups := { s.active_power_ups with speed_boost := some 300 },
               move_delay := max 50 (s.move_delay / 2) }
  | .slowDown =>
      { s with active_power_ups := { s.active_power_ups with slow_down := some 300 },
               move_delay := min 500 (s.move_delay * 2) }
  | .doublePoints =>
      { s with active_power_ups := { s.active_power_ups with double_points := some 300 } }
  | .invincibility =>
      { s with active_power_ups := { s.active_power_ups with invincibility := some 200 } }
  | .shrink =>
      if s.snake.length > 1 then
        { s with snake := s.snake.take (max 1 (s.snake.length / 2)) }
      else s
  | .extend =>
      let tail := s.snake.getLastD (0, 0)
      { s with snake := s.snake ++ [tail, tail, tail] }

/-- Removal of the first occurrence of an item from a list, the semantics of
Python `list.remove`. -/
def removeFirst (p : PowerUpItem) : List PowerUpItem → List PowerUpItem
  | [] => []
  | q :: rest => if q = p then rest else q :: removeFirst p rest

/-- The power-up collision loop at the end of `update_snake`: iterate over a
copy of `power_ups`; every item whose cell equals the new head is activated
and removed from the live list. -/
def power_up_pass (new_head : Int × Int) : List PowerUpItem → GameState → GameState
  | [], s => s
  | p :: rest, s =>
      if new_head = p.pos then
        let s1 := activate_power_up p.type s
        power_up_pass new_head rest { s1 with power_ups := removeFirst p s1.power_ups }
      else
        power_up_pass new_head rest s

/-- The part of `update_snake` from the self-collision check onward, applied
to the (possibly wrapped) new head. `r` is the cell the spawner returns if
food is eaten this tick. -/
def resolve_head (r : Int × Int) (new_head : Int × Int) (s : GameState) : GameState :=
  if new_head ∈ s.snake ∧ s.active_power_ups.invincibility = none then
    { s with game_over := true }
  else
    let s1 := { s with snake := new_head :: s.snake }
    let s2 :=
      if new_head = s1.food then
        let points : Int := 10
        let points := if s1.active_power_ups.double_points.isSome then points * 2 else points
        let s' := { s1 with score := s1.score + points, food := r }
        if s'.score % 50 = 0 then
          let level := s'.level + 1
          let speed := min 20 (s'.base_speed + level)
          { s' with level := level, speed := speed, move_delay := 1000 / speed }
        else s'
      else
        { s1 with snake := s1.snake.dropLast }
    power_up_pass new_head s2.power_ups s2

/-- One movement step: the body of `update_snake` once the timing gate has
fired. Wall collision ends the game unless invincibility is active, in which
case the head wraps; then the rest of the tick is resolved. -/
def move_step (r : Int × Int) (s : GameState) : GameState :=
  let nh := new_head_of s
  if out_of_bounds nh then
    if s.active_power_ups.invincibility = none then
      { s with game_over := true }
    else
      resolve_head r (wrapCell nh) s
  else
    resolve_head r nh s

/-- Embedding of `SnakeGame.update_snake`: the movement step runs only when
`current_time - move_timer >= move_delay`, and then `move_timer` is set to
the current time first. -/
def update_snake (current_time : Int) (r : Int × Int) (s : GameState) : GameState :=
  if s.move_delay ≤ current_time - s.move_timer then
    move_step r { s with move_timer := current_time }
  else s

/-- One decrement of an active-effect duration in `update_power_ups`:
`timer -= 1`, and the key is deleted when the result is `<= 0`. -/
def tickTimer (t : Option Int) : Option Int :=
  match t with
  | none => none
  | some v => if v - 1 ≤ 0 then none else some (v - 1)

/-- Whether an active-effect duration expires on this decrement
(present and reaching `<= 0`). -/
def expiresNow (t : Option Int) : Bool :=
  match t with
  | none => false
  | some v => v - 1 ≤ 0

/-- The pending-item update loop at the end of `update_power_ups`:
`timer -= 1`, `blink += 1`, items with `timer <= 0` removed. -/
def tickItems (l : List PowerUpItem) : List PowerUpItem :=
  l.filterMap fun p =>
    let p1 : PowerUpItem := { p with timer := p.timer - 1, blink := p.blink + 1 }
    if p1.timer ≤ 0 then none else some p1

/-- Embedding of `SnakeGame.update_power_ups`. Every active effect duration
is decremented by one; an expiring speed effect resets `move_delay` to
`1000 // speed`; the spawn timer increments and at 600 a new item (`newItem`,
the spawner result) is appended and the timer reset; finally all pending
items age by one and expired ones are pruned. -/
def update_power_ups (newItem : PowerUpItem) (s : GameState) : GameState :=
  let resetSpeed := expiresNow s.active_power_ups.speed_boost ||
                    expiresNow s.active_power_ups.slow_down
  let s1 := { s with
    active_power_ups :=
      { speed_boost := tickTimer s.active_power_ups.speed_boost,
        slow_down := tickTimer s.active_power_ups.slow_down,
        double_points := tickTimer s.active_power_ups.double_points,
        invincibility := tickTimer s.active_power_ups.invincibility },
    move_delay := if resetSpeed then 1000 / s.speed else s.move_delay }
  let s2 :=
    if 600 ≤ s1.power_up_spawn_timer + 1 then
      { s1 with power_ups := s1.power_ups ++ [newItem], power_up_spawn_timer := 0 }
    else
      { s1 with power_up_spawn_timer := s1.power_up_spawn_timer + 1 }
  { s2 with power_ups := tickItems s2.power_ups }

/-- One iteration of the main loop of `run` while running and unpaused:
`handle_input(); update_snake(); update_power_ups()` (particle update and
drawing are cosmetic and not modelled). -/
def frame (keys : Keys) (current_time : Int) (r : Int × Int) (newItem : PowerUpItem)
    (s : GameState) : GameState :=
  update_power_ups newItem (update_snake current_time r (handle_input keys s))

/-- Fuel-indexed unfolding of the `while True` rejection-sampling loop of
`spawn_food`: `rand` is the stream of sampled cells, `i` the index of the
next sample; the loop returns the first sampled cell not on the snake. The
source loop is the limit of unbounded fuel — it has no retry bound. -/
def spawn_food_fuel (rand : Nat → Int × Int) (snake : List (Int × Int)) :
    Nat → Nat → Option (Int × Int)
  | _, 0 => none
  | i, fuel + 1 =>
      let c := rand i
      if c ∉ snake then some c else spawn_food_fuel rand snake (i + 1) fuel

/-- Fuel-indexed unfolding of the `while True` loop of `spawn_power_up`:
like `spawn_food_fuel` but the sampled cell must also differ from the food
cell, and on success the appended item dict is built with the sampled kind,
`timer = 300`, `blink = 0`. -/
def spawn_power_up_fuel (rand : Nat → Int × Int) (rtype : Nat → PowerUpType)
    (snake : List (Int × Int)) (food : Int × Int) :
    Nat → Nat → Option PowerUpItem
  | _, 0 => none
  | i, fuel + 1 =>
      let c := rand i
      if c ∉ snake ∧ c ≠ food then some ⟨c, rtype i, 300, 0⟩
      else spawn_power_up_fuel rand rtype snake food (i + 1) fuel

/-- The state built by `reset_game`, parameterised by the cell the initial
food spawn returns: single segment at the grid centre, direction right,
score 0, level 1, speed 8, delay `1000 // 8 = 125`. -/
def reset_state (food0 : Int × Int) : GameState :=
  { snake := [(GRID_WIDTH / 2, GRID_HEIGHT / 2)]
    direction := Direction.right
    food := food0
    score := 0
    level := 1
    speed := 8
    base_speed := 8
    game_over := false
    active_power_ups := ⟨none, none, none, none⟩
    power_ups := []
    power_up_spawn_timer := 0
    move_timer := 0
    move_delay := 1000 / 8 }

/-- Dummy spawner result used where `update_power_ups` needs an item argument
that the state under consideration never consumes. -/
def item0 : PowerUpItem := ⟨(9, 9), PowerUpType.doublePoints, 300, 0⟩

/-- Keyboard state with no arrow key pressed. -/
def keys0 : Keys := ⟨false, false, false, false⟩

/-- Keyboard state pressing exactly the one arrow key of the given
direction. -/
def onlyKey : Direction → Keys
  | .up => ⟨true, false, false, false⟩
  | .down => ⟨false, true, false, false⟩
  | .left => ⟨false, false, true, false⟩
  | .right => ⟨false, false, false, true⟩

/-- An adversarial sampling stream that always returns the cell (0, 0). -/
def badRand : Nat → Int × Int := fun _ => (0, 0)

/-- A sampling stream that always returns the free cell (1, 1). -/
def goodRand : Nat → Int × Int := fun _ => (1, 1)

/-- A sampling stream that always returns the cell (2, 2). -/
def goodRand2 : Nat → Int × Int := fun _ => (2, 2)

/-- A kind stream that always picks SpeedBoost. -/
def rtype0 : Nat → PowerUpType := fun _ => PowerUpType.speedBoost

/-- State whose next head cell is exactly the tail cell that would vacate
this tick: the body is a 2 by 2 loop, head (5,5) moving down onto the tail
(5,6); food elsewhere, no modifiers active. -/
def exTailChase : GameState :=
  { reset_state (0, 0) with
      snake := [(5, 5), (6, 5), (6, 6), (5, 6)]
      direction := Direction.down }

/-- Scenario A state: length-1 agent at (5,5) moving right, food at (6,5). -/
def exScenarioA : GameState :=
  { reset_state (6, 5) with snake := [(5, 5)] }

/-- Scenario B state: agent at (0,5) moving left, invincibility inactive. -/
def exScenarioB : GameState :=
  { reset_state (20, 20) with
      snake := [(0, 5)]
      direction := Direction.left }

/-- Scenario C state: as Scenario B but invincibility active with 50 ticks
remaining. -/
def exScenarioC : GameState :=
  { exScenarioB with
      active_power_ups := ⟨none, none, none, some 50⟩ }

/-- State about to eat food worth 20 points from score 40: DoublePoints is
active, so the score jumps from 40 to 60, skipping the multiple of 50. -/
def exSkip50 : GameState :=
  { reset_state (6, 5) with
      snake := [(5, 5)]
      score := 40
      active_power_ups := ⟨none, none, some 100, none⟩ }

/-- State about to eat food worth 10 points from score 40, reaching exactly
50 (Scenario D). -/
def exReach50 : GameState :=
  { reset_state (6, 5) with
      snake := [(5, 5)]
      score := 40 }

/-- State in which SpeedBoost has 1 tick left and SlowDown 5 ticks, with a
combined transient interval of 250 ms over base speed 8. -/
def exBothSpeeds : GameState :=
  { reset_state (20, 20) with
      snake := [(5, 5)]
      active_power_ups := ⟨some 1, some 5, none, none⟩
      move_delay := 250 }

/-- State with invincibility at 50 ticks remaining and a movement gate that
does not fire at time 50 (`move_timer = 0`, `move_delay = 125`). -/
def exFrameNoMove : GameState :=
  { reset_state (20, 20) with
      snake := [(5, 5)]
      active_power_ups := ⟨none, none, none, some 50⟩ }

/-- State with both speed modifiers already active and a transient interval
of 200 ms, about to re-collect a speed power-up. -/
def exRecollect : GameState :=
  { reset_state (20, 20) with
      snake := [(5, 5)]
      active_power_ups := ⟨some 120, some 120, none, none⟩
      move_delay := 200 }

/-- A single-segment state used to exhibit the Extend duplication. -/
def exSingle : GameState :=
  { reset_state (0, 0) with snake := [(5, 5)] }

/-- The item the power-up spawner returns on the concrete sampling stream
`goodRand2` with kind stream `rtype0`. -/
def witItem : PowerUpItem := ⟨(2, 2), PowerUpType.speedBoost, 300, 0⟩

/-- State with all four timed modifiers active simultaneously. -/
def exAllMods : GameState :=
  { reset_state (20, 20) with
      snake := [(5, 5)]
      active_power_ups := ⟨some 300, some 200, some 100, some 50⟩ }

lemma activate_power_up_game_over (t : PowerUpType) (s : GameState) :
    (activate_power_up t s).game_over = s.game_over := by
  cases t
  case shrink =>
    simp only [activate_power_up]
    split <;> rfl
  all_goals rfl

lemma power_up_pass_game_over (nh : Int × Int) (l : List PowerUpItem) (s : GameState) :
    (power_up_pass nh l s).game_over = s.game_over := by
  induction l generalizing s with
  | nil => rfl
  | cons p rest ih =>
      simp only [power_up_pass]
      split
      · rw [ih]
        simp [activate_power_up_game_over]
      · exact ih s

lemma take_pos_cons (a : Int × Int) (l : List (Int × Int)) (n : Nat) (hn : 1 ≤ n) :
    (a :: l).take n ≠ [] ∧ ((a :: l).take n).headD (0, 0) = a := by
  cases n with
  | zero => omega
  | succ k => simp [List.take_succ_cons]

lemma activate_power_up_head (t : PowerUpType) (s : GameState) (hne : s.snake ≠ []) :
    (activate_power_up t s).snake ≠ [] ∧
    (activate_power_up t s).snake.headD (0, 0) = s.snake.headD (0, 0) := by
  cases hsn : s.snake with
  | nil => exact absurd hsn hne
  | cons a l =>
    cases t
    case shrink =>
      simp only [activate_power_up, hsn]
      split
      · have h := take_pos_cons a l (max 1 ((a :: l).length / 2)) (le_max_left 1 _)
        simpa [hsn] using h
      · simp [hsn]
    case extend => simp [activate_power_up, hsn]
    all_goals simp [activate_power_up, hsn]

lemma power_up_pass_head (nh : Int × Int) (l : List PowerUpItem) (s : GameState)
    (hne : s.snake ≠ []) :
    (power_up_pass nh l s).snake ≠ [] ∧
    (power_up_pass nh l s).snake.headD (0, 0) = s.snake.headD (0, 0) := by
  induction l generalizing s with
  | nil => exact ⟨hne, rfl⟩
  | cons p rest ih =>
      simp only [power_up_pass]
      split
      · have h1 := activate_power_up_head p.type s hne
        have h2 := ih { activate_power_up p.type s with
            power_ups := removeFirst p (activate_power_up p.type s).power_ups } h1.1
        exact ⟨h2.1, h2.2.trans h1.2⟩
      · exact ih s hne

lemma power_up_pass_no_match (nh : Int × Int) (l : List PowerUpItem) (s : GameState)
    (h : ∀ p ∈ l, p.pos ≠ nh) :
    power_up_pass nh l s = s := by
  induction l generalizing s with
  | nil => rfl
  | cons p rest ih =>
      have hp : nh ≠ p.pos := fun he => h p (List.mem_cons_self p rest) he.symm
      simp only [power_up_pass, hp, if_false]
      exact ih s fun q hq => h q (List.mem_cons_of_mem p hq)

lemma activate_power_up_nodup (t : PowerUpType) (s : GameState)
    (ht : t ≠ PowerUpType.extend) (hnd : s.snake.Nodup) :
    (activate_power_up t s).snake.Nodup := by
  cases t
  case extend => exact absurd rfl ht
  case shrink =>
    simp only [activate_power_up]
    split
    · exact hnd.sublist (List.take_sublist _ _)
    · exact hnd
  all_goals exact hnd

lemma power_up_pass_nodup (nh : Int × Int) (l : List PowerUpItem) (s : GameState)
    (hext : ∀ p ∈ l, p.type ≠ PowerUpType.extend) (hnd : s.snake.Nodup) :
    (power_up_pass nh l s).snake.Nodup := by
  induction l generalizing s with
  | nil => exact hnd
  | cons p rest ih =>
      simp only [power_up_pass]
      split
      · exact ih { activate_power_up p.type s with
            power_ups := removeFirst p (activate_power_up p.type s).power_ups }
          (fun q hq => hext q (List.mem_cons_of_mem p hq))
          (activate_power_up_nodup p.type s (hext p (List.mem_cons_self p rest)) hnd)
      · exact ih s (fun q hq => hext q (List.mem_cons_of_mem p hq)) hnd

lemma headD_dropLast_cons (a : Int × Int) (l : List (Int × Int)) (h : l ≠ []) :
    ((a :: l).dropLast).headD (0, 0) = a := by
  cases l with
  | nil => exact absurd rfl h
  | cons b m => rfl

lemma dropLast_cons_ne_nil (a : Int × Int) (l : List (Int × Int)) (h : l ≠ []) :
    (a :: l).dropLast ≠ [] := by
  cases l with
  | nil => exact absurd rfl h
  | cons b m => simp

lemma spawn_bad (fuel i : Nat) :
    spawn_food_fuel badRand [((0 : Int), (0 : Int))] i fuel = none := by
  induction fuel generalizing i with
  | zero => rfl
  | succ n ih => simpa [spawn_food_fuel, badRand] using ih (i + 1)

lemma resolve_head_game_over (r nh : Int × Int) (s : GameState)
    (h : ¬(nh ∈ s.snake ∧ s.active_power_ups.invincibility = none)) :
    (resolve_head r nh s).game_over = s.game_over := by
  unfold resolve_head
  rw [if_neg h]
  simp only [power_up_pass_game_over]
  repeat' split
  all_goals rfl

lemma resolve_head_headD (r nh : Int × Int) (s : GameState)
    (h : ¬(nh ∈ s.snake ∧ s.active_power_ups.invincibility = none)) (hne : s.snake ≠ []) :
    (resolve_head r nh s).snake.headD (0, 0) = nh := by
  unfold resolve_head
  rw [if_neg h]
  simp only []
  repeat' split
  all_goals refine ((power_up_pass_head nh _ _ ?_).2).trans ?_
  all_goals first
    | exact dropLast_cons_ne_nil nh s.snake hne
    | exact headD_dropLast_cons nh s.snake hne
    | simp

/-- C2: on an out-of-bounds new head, no invincibility means the whole tick
reduces to setting game over (body, score and food untouched); with
invincibility active the game stays running and the resulting head is the
wrapped cell. -/
theorem wall_collision_behavior (r : Int × Int) (s : GameState)
    (hg : s.game_over = false) (hne : s.snake ≠ [])
    (hob : out_of_bounds (new_head_of s) = true) :
    (s.active_power_ups.invincibility = none →
      move_step r s = { s with game_over := true }) ∧
    (s.active_power_ups.invincibility ≠ none →
      (move_step r s).game_over = false ∧
      (move_step r s).snake.headD (0, 0) = wrapCell (new_head_of s)) := by
  constructor
  · intro hinv
    simp [move_step, hob, hinv]
  · intro hinv
    have hmv : move_step r s = resolve_head r (wrapCell (new_head_of s)) s := by
      simp [move_step, hob, hinv]
    have hnc : ¬(wrapCell (new_head_of s) ∈ s.snake ∧
        s.active_power_ups.invincibility = none) := fun hc => hinv hc.2
    rw [hmv]
    exact ⟨(resolve_head_game_over r _ s hnc).trans hg,
           resolve_head_headD r _ s hnc hne⟩

/-- C2 witness: Scenario B ends the game with the state otherwise frozen;
Scenario C stays running with the head wrapped to (49, 5). -/
theorem wall_collision_behavior_witness :
    move_step (0, 0) exScenarioB = { exScenarioB with game_over := true } ∧
    (move_step (0, 0) exScenarioC).game_over = false ∧
    (move_step (0, 0) exScenarioC).snake.headD (0, 0) = wrapCell (new_head_of exScenarioC) := by
  refine ⟨(wall_collision_behavior (0, 0) exScenarioB (by decide) (by decide) (by decide)).1
      (by decide), ?_, ?_⟩
  · exact ((wall_collision_behavior (0, 0) exScenarioC (by decide) (by decide)
      (by decide)).2 (by decide)).1
  · exact ((wall_collision_behavior (0, 0) exScenarioC (by decide) (by decide)
      (by decide)).2 (by decide)).2

/-- C1 counterexample: the head moves onto the tail cell that would vacate
this tick (the food is elsewhere and invincibility is off), yet the code
sets game over, because the self-collision test runs against the whole body
before the tail is popped. -/
theorem tail_cell_collision_counterexample :
    (move_step (0, 0) exTailChase).game_over = true ∧
    new_head_of exTailChase = (5, 6) ∧
    exTailChase.snake.getLast? = some (5, 6) ∧
    ((5 : Int), (6 : Int)) ∉ exTailChase.snake.dropLast ∧
    exTailChase.food ≠ (5, 6) ∧
    exTailChase.active_power_ups.invincibility = none := by decide

/-- C1 amended: with invincibility inactive and the new head in bounds, the
tick ends in game over exactly when the new head lies anywhere in the
current body, the vacating tail cell included. -/
theorem self_collision_includes_tail (r : Int × Int) (s : GameState)
    (hinv : s.active_power_ups.invincibility = none) (hg : s.game_over = false)
    (hob : out_of_bounds (new_head_of s) = false) :
    (move_step r s).game_over = true ↔ new_head_of s ∈ s.snake := by
  have hmv : move_step r s = resolve_head r (new_head_of s) s := by
    simp [move_step, hob]
  rw [hmv]
  by_cases hmem : new_head_of s ∈ s.snake
  · simp [resolve_head, hmem, hinv]
  · rw [resolve_head_game_over r _ s fun hc => hmem hc.1, hg]
    simp [hmem]

/-- C1 witness: the amended rule applied to the tail-chase state yields game
over. -/
theorem self_collision_includes_tail_witness :
    (move_step (0, 0) exTailChase).game_over = true :=
  (self_collision_includes_tail (0, 0) exTailChase (by decide) (by decide)
    (by decide)).mpr (by decide)

/-- C3: eating the collectible adds 10 points (20 under DoublePoints), keeps
the tail so the body grows by exactly the new head, and replaces the food
with the cell the spawner returns. -/
theorem food_consumption_growth (r : Int × Int) (s : GameState)
    (hob : out_of_bounds (new_head_of s) = false)
    (hself : new_head_of s ∉ s.snake)
    (hfood : new_head_of s = s.food)
    (hpu : ∀ p ∈ s.power_ups, p.pos ≠ new_head_of s) :
    (move_step r s).snake = new_head_of s :: s.snake ∧
    (move_step r s).score =
      s.score + (if s.active_power_ups.double_points.isSome then 20 else 10) ∧
    (move_step r s).food = r := by
  have hmv : move_step r s = resolve_head r (new_head_of s) s := by
    simp [move_step, hob]
  rw [hmv]
  unfold resolve_head
  rw [if_neg fun hc => hself hc.1]
  simp only []
  rw [if_pos hfood]
  repeat' split
  all_goals simp only []
  all_goals rw [power_up_pass_no_match (new_head_of s) s.power_ups _ hpu]
  all_goals simp_all

/-- C5 counterexample: with DoublePoints active a food consumption takes the
score from 40 to 60; the code leaves the level at 1, while the claimed
formula level = 1 + score // 50 demands 2. -/
theorem level_formula_counterexample :
    (move_step (0, 0) exSkip50).score = 60 ∧
    (move_step (0, 0) exSkip50).level = 1 ∧
    (move_step (0, 0) exSkip50).level ≠
      1 + (move_step (0, 0) exSkip50).score / 50 := by decide

/-- C5 amended: on a food consumption the level increments (and speed and
interval are recomputed) exactly when the resulting score is divisible by
50; otherwise level, speed and interval are untouched. A DoublePoints jump
over a multiple of 50 therefore skips the level-up. -/
theorem level_up_rule (r : Int × Int) (s : GameState)
    (hob : out_of_bounds (new_head_of s) = false)
    (hself : new_head_of s ∉ s.snake)
    (hfood : new_head_of s = s.food)
    (hpu : ∀ p ∈ s.power_ups, p.pos ≠ new_head_of s) :
    ((move_step r s).score % 50 = 0 →
      (move_step r s).level = s.level + 1 ∧
      (move_step r s).speed = min 20 (s.base_speed + (s.level + 1)) ∧
      (move_step r s).move_delay = 1000 / min 20 (s.base_speed + (s.level + 1))) ∧
    ((move_step r s).score % 50 ≠ 0 →
      (move_step r s).level = s.level ∧
      (move_step r s).speed = s.speed ∧
      (move_step r s).move_delay = s.move_delay) := by
  have hmv : move_step r s = resolve_head r (new_head_of s) s := by
    simp [move_step, hob]
  rw [hmv]
  unfold resolve_head
  rw [if_neg fun hc => hself hc.1]
  simp only []
  rw [if_pos hfood]
  repeat' split
  all_goals simp only []
  all_goals rw [power_up_pass_no_match (new_head_of s) s.power_ups _ hpu]
  all_goals constructor
  all_goals intro h50
  all_goals simp_all

/-- C3 witness: Scenario A — from a length-1 agent at (5,5) moving right
with food at (6,5), one tick gives body [(6,5),(5,5)] (head (6,5), length 2)
and score 10. -/
theorem food_consumption_growth_witness :
    (move_step (7, 5) exScenarioA).snake = [(6, 5), (5, 5)] ∧
    (move_step (7, 5) exScenarioA).score = 10 ∧
    (move_step (7, 5) exScenarioA).food = (7, 5) := by
  have h := food_consumption_growth (7, 5) exScenarioA (by decide) (by decide)
    (by decide) (fun p hp => absurd hp (by intro hc; exact (List.not_mem_nil p) hc))
  refine ⟨?_, ?_, h.2.2⟩
  · rw [h.1]; decide
  · rw [h.2.1]; decide

/-- C5 witness: Scenario D — reaching score exactly 50 increments the level
from 1 to 2, sets speed to min 20 (8 + 2) = 10 and the interval to 100 ms. -/
theorem level_up_rule_witness :
    (move_step (7, 5) exReach50).level = 2 ∧
    (move_step (7, 5) exReach50).speed = 10 ∧
    (move_step (7, 5) exReach50).move_delay = 100 := by
  have h := (level_up_rule (7, 5) exReach50 (by decide) (by decide) (by decide)
    (fun p hp => absurd hp (by intro hc; exact (List.not_mem_nil p) hc))).1 (by decide)
  refine ⟨?_, ?_, ?_⟩
  · rw [h.1]; decide
  · rw [h.2.1]; decide
  · rw [h.2.2]; decide

/-- C4 counterexample: activating Extend on a single-segment body with
invincibility inactive yields four copies of the same cell — the
no-duplicate-cells invariant is broken by Extend itself. -/
theorem extend_duplicates_counterexample :
    ¬ (activate_power_up PowerUpType.extend exSingle).snake.Nodup ∧
    exSingle.active_power_ups.invincibility = none ∧
    exSingle.snake.Nodup := by decide

/-- C4 amended: while invincibility is inactive a movement tick preserves
the no-duplicate invariant as long as no pending Extend item is on the
board, but resolving a consumed Extend power-up always introduces duplicate
cells (it appends three copies of the tail). -/
theorem nodup_preservation_amended :
    (∀ (r : Int × Int) (s : GameState),
      s.active_power_ups.invincibility = none →
      (∀ p ∈ s.power_ups, p.type ≠ PowerUpType.extend) →
      s.snake.Nodup → (move_step r s).snake.Nodup) ∧
    (∀ s : GameState, s.snake ≠ [] →
      ¬ (activate_power_up PowerUpType.extend s).snake.Nodup) := by
  constructor
  · intro r s hinv hext hnd
    by_cases hob : out_of_bounds (new_head_of s) = true
    · have hmv : move_step r s = { s with game_over := true } := by
        simp [move_step, hob, hinv]
      rw [hmv]
      exact hnd
    · have hmv : move_step r s = resolve_head r (new_head_of s) s := by
        simp [move_step, hob]
      rw [hmv]
      unfold resolve_head
      split
      · exact hnd
      next hnc =>
        have hmem : new_head_of s ∉ s.snake := fun hm => hnc ⟨hm, hinv⟩
        simp only []
        repeat' split
        all_goals simp only []
        all_goals first
          | exact power_up_pass_nodup _ _ _ hext (List.nodup_cons.mpr ⟨hmem, hnd⟩)
          | exact power_up_pass_nodup _ _ _ hext
              ((List.nodup_cons.mpr ⟨hmem, hnd⟩).sublist (List.dropLast_sublist _))
  · intro s hne
    cases hsn : s.snake with
    | nil => exact absurd hsn hne
    | cons a l =>
      intro hnd
      simp only [activate_power_up, hsn] at hnd
      have h3 := hnd.sublist (List.sublist_append_right (a :: l) _)
      simp at h3

/-- C4 witness: the amended preservation applied to Scenario A, and the
Extend violation applied to a concrete single-segment body. -/
theorem nodup_preservation_witness :
    (move_step (7, 5) exScenarioA).snake.Nodup ∧
    ¬ (activate_power_up PowerUpType.extend exSingle).snake.Nodup := by
  constructor
  · exact nodup_preservation_amended.1 (7, 5) exScenarioA (by decide)
      (fun p hp => absurd hp (by intro hc; exact (List.not_mem_nil p) hc)) (by decide)
  · exact nodup_preservation_amended.2 exSingle (by decide)

/-- C6 counterexample: SpeedBoost expires while SlowDown is still active
(4 ticks left); the code resets the interval to the plain base value
1000 // 8 = 125 instead of the claimed reapplication of SlowDown's
multiplier (min 500 (125 * 2) = 250). -/
theorem speed_expiry_counterexample :
    (update_power_ups item0 exBothSpeeds).active_power_ups.speed_boost = none ∧
    (update_power_ups item0 exBothSpeeds).active_power_ups.slow_down = some 4 ∧
    (update_power_ups item0 exBothSpeeds).move_delay = 125 ∧
    (125 : Int) ≠ min 500 (125 * 2) := by decide

/-- C6 amended: whenever a timed speed modifier expires on this update, the
interval is reset to 1000 // speed, regardless of whether the other speed
modifier is still active. -/
theorem speed_expiry_resets_to_base (newItem : PowerUpItem) (s : GameState)
    (h : expiresNow s.active_power_ups.speed_boost = true ∨
         expiresNow s.active_power_ups.slow_down = true) :
    (update_power_ups newItem s).move_delay = 1000 / s.speed := by
  have hr : (expiresNow s.active_power_ups.speed_boost ||
             expiresNow s.active_power_ups.slow_down) = true := by
    rcases h with h | h <;> simp [h]
  unfold update_power_ups
  simp only [hr, if_true]
  split <;> rfl

/-- C6 witness: applying the amended expiry rule to the concrete state
yields the base interval 125 ms. -/
theorem speed_expiry_witness :
    (update_power_ups item0 exBothSpeeds).move_delay = 125 := by
  rw [speed_expiry_resets_to_base item0 exBothSpeeds (Or.inl (by decide))]
  decide

/-- C7 counterexample: a main-loop frame whose timing gate does not fire
(time 50 with interval 125) moves the agent zero cells, yet the
invincibility countdown still drops from 50 to 49 — durations tick per
frame, not per movement step. -/
theorem modifier_tick_counterexample :
    (frame keys0 50 (0, 0) item0 exFrameNoMove).snake = exFrameNoMove.snake ∧
    (frame keys0 50 (0, 0) item0 exFrameNoMove).move_timer = exFrameNoMove.move_timer ∧
    (frame keys0 50 (0, 0) item0 exFrameNoMove).active_power_ups.invincibility =
      some 49 := by decide

/-- C7 amended: each call to the power-up update (one outer-loop frame, not
one movement step) decrements every active modifier duration — speed boost,
slow down, double points and invincibility alike — by exactly one, removing
a key when it reaches zero. -/
theorem modifier_decrement_per_update (newItem : PowerUpItem) (s : GameState) (t : Int) :
    (s.active_power_ups.speed_boost = some t →
      (update_power_ups newItem s).active_power_ups.speed_boost =
        if t - 1 ≤ 0 then none else some (t - 1)) ∧
    (s.active_power_ups.slow_down = some t →
      (update_power_ups newItem s).active_power_ups.slow_down =
        if t - 1 ≤ 0 then none else some (t - 1)) ∧
    (s.active_power_ups.double_points = some t →
      (update_power_ups newItem s).active_power_ups.double_points =
        if t - 1 ≤ 0 then none else some (t - 1)) ∧
    (s.active_power_ups.invincibility = some t →
      (update_power_ups newItem s).active_power_ups.invincibility =
        if t - 1 ≤ 0 then none else some (t - 1)) := by
  refine ⟨fun ht => ?_, fun ht => ?_, fun ht => ?_, fun ht => ?_⟩ <;>
    · unfold update_power_ups
      simp only [ht, tickTimer]
      split <;> rfl

/-- C7 witness: one update takes active countdowns of 300, 200, 100 and 50
(speed boost, slow down, double points, invincibility) to 299, 199, 99
and 49. -/
theorem modifier_decrement_witness :
    (update_power_ups item0 exAllMods).active_power_ups.speed_boost = some 299 ∧
    (update_power_ups item0 exAllMods).active_power_ups.slow_down = some 199 ∧
    (update_power_ups item0 exAllMods).active_power_ups.double_points = some 99 ∧
    (update_power_ups item0 exAllMods).active_power_ups.invincibility = some 49 := by
  refine ⟨?_, ?_, ?_, ?_⟩
  · rw [(modifier_decrement_per_update item0 exAllMods 300).1 (by decide)]; decide
  · rw [(modifier_decrement_per_update item0 exAllMods 200).2.1 (by decide)]; decide
  · rw [(modifier_decrement_per_update item0 exAllMods 100).2.2.1 (by decide)]; decide
  · rw [(modifier_decrement_per_update item0 exAllMods 50).2.2.2 (by decide)]; decide

/-- C8: a requested direction whose delta is the exact negation of the
current direction's delta is discarded: the direction after input handling
is unchanged. -/
theorem reversal_rejected (s : GameState) (d : Direction)
    (h : d.delta.1 = -(s.direction.delta.1) ∧ d.delta.2 = -(s.direction.delta.2)) :
    (handle_input (onlyKey d) s).direction = s.direction := by
  cases hd : s.direction <;> cases d <;>
    simp_all [handle_input, onlyKey, Direction.delta]

/-- C8 witness: requesting Left while moving Right leaves the direction
Right. -/
theorem reversal_rejected_witness :
    (handle_input (onlyKey Direction.left) (reset_state (20, 20))).direction =
      Direction.right := by
  rw [reversal_rejected (reset_state (20, 20)) Direction.left ⟨by decide, by decide⟩]
  decide

/-- C10: collecting a SpeedBoost halves the current interval again (floored
at 50) and resets its duration to 300, and collecting a SlowDown doubles
the current interval again (capped at 500) and resets its duration to 300 —
stated for a state in which both speed modifiers are already active, so the
pickups compound the existing transient interval. -/
theorem repeat_modifier_compounds (s : GameState)
    (hb : s.active_power_ups.speed_boost.isSome = true)
    (hd : s.active_power_ups.slow_down.isSome = true) :
    ((activate_power_up PowerUpType.speedBoost s).active_power_ups.speed_boost = some 300 ∧
     (activate_power_up PowerUpType.speedBoost s).move_delay = max 50 (s.move_delay / 2)) ∧
    ((activate_power_up PowerUpType.slowDown s).active_power_ups.slow_down = some 300 ∧
     (activate_power_up PowerUpType.slowDown s).move_delay = min 500 (s.move_delay * 2)) :=
  ⟨⟨rfl, rfl⟩, ⟨rfl, rfl⟩⟩

/-- C10 witness: with both modifiers active and a transient interval of
200 ms, a second SpeedBoost gives 100 ms and a second SlowDown 400 ms. -/
theorem repeat_modifier_witness :
    (activate_power_up PowerUpType.speedBoost exRecollect).move_delay = 100 ∧
    (activate_power_up PowerUpType.slowDown exRecollect).move_delay = 400 := by
  have h := repeat_modifier_compounds exRecollect (by decide) (by decide)
  constructor
  · rw [h.1.2]; decide
  · rw [h.2.2]; decide

lemma spawn_food_fuel_sound (rand : Nat → Int × Int) (snake : List (Int × Int)) :
    ∀ (fuel i : Nat) (c : Int × Int),
      spawn_food_fuel rand snake i fuel = some c → c ∉ snake := by
  intro fuel
  induction fuel with
  | zero => intro i c h; simp [spawn_food_fuel] at h
  | succ n ih =>
      intro i c h
      simp only [spawn_food_fuel] at h
      split at h
      · next hc =>
          cases h
          exact hc
      · exact ih (i + 1) c h

lemma spawn_power_up_fuel_sound (rand : Nat → Int × Int) (rtype : Nat → PowerUpType)
    (snake : List (Int × Int)) (food : Int × Int) :
    ∀ (fuel i : Nat) (it : PowerUpItem),
      spawn_power_up_fuel rand rtype snake food i fuel = some it →
      it.pos ∉ snake ∧ it.pos ≠ food ∧ it.timer = 300 := by
  intro fuel
  induction fuel with
  | zero => intro i it h; simp [spawn_power_up_fuel] at h
  | succ n ih =>
      intro i it h
      simp only [spawn_power_up_fuel] at h
      split at h
      · next hc =>
          cases h
          exact ⟨hc.1, hc.2, rfl⟩
      · exact ih (i + 1) it h

/-- C9 counterexample: the snake occupies only (0,0), so a free in-bounds
cell such as (1,0) exists, yet 3000 retries of the rejection-sampling loop
on the constant stream return nothing — there is no retry bound and nothing
is signalled. -/
theorem spawn_retry_counterexample :
    spawn_food_fuel badRand [((0 : Int), (0 : Int))] 0 3000 = none ∧
    ((1 : Int), (0 : Int)) ∉ [((0 : Int), (0 : Int))] ∧
    out_of_bounds (1, 0) = false :=
  ⟨spawn_bad 3000 0, by decide, by decide⟩

/-- C9 amended: when the sampling loop returns, the cell is off the snake
(and the power-up variant also avoids the food cell and carries a 300-tick
countdown); but the retries are unbounded: on an adversarial sampling
stream the food spawner makes any number of retries without terminating,
even though free cells exist, and no GridExhausted condition exists in the
code. -/
theorem spawn_loop_amended :
    (∀ fuel i, spawn_food_fuel badRand [((0 : Int), (0 : Int))] i fuel = none) ∧
    (∀ (rand : Nat → Int × Int) (snake : List (Int × Int)) (fuel i : Nat) (c : Int × Int),
      spawn_food_fuel rand snake i fuel = some c → c ∉ snake) ∧
    (∀ (rand : Nat → Int × Int) (rtype : Nat → PowerUpType) (snake : List (Int × Int))
      (food : Int × Int) (fuel i : Nat) (it : PowerUpItem),
      spawn_power_up_fuel rand rtype snake food i fuel = some it →
      it.pos ∉ snake ∧ it.pos ≠ food ∧ it.timer = 300) :=
  ⟨fun fuel i => spawn_bad fuel i,
   fun rand snake fuel i c h => spawn_food_fuel_sound rand snake fuel i c h,
   fun rand rtype snake food fuel i it h =>
     spawn_power_up_fuel_sound rand rtype snake food fuel i it h⟩

/-- C9 witness: 7 retries on the adversarial stream find nothing; a
successful food spawn at (1,1) is off the snake; a successful power-up
spawn at (2,2) is off the snake, distinct from the food and starts at 300
ticks. -/
theorem spawn_loop_witness :
    spawn_food_fuel badRand [((0 : Int), (0 : Int))] 0 7 = none ∧
    ((1 : Int), (1 : Int)) ∉ [((0 : Int), (0 : Int))] ∧
    (witItem.pos ∉ [((0 : Int), (0 : Int))] ∧ witItem.pos ≠ ((1 : Int), (1 : Int)) ∧
      witItem.timer = 300) :=
  ⟨spawn_loop_amended.1 7 0,
   spawn_loop_amended.2.1 goodRand [((0 : Int), (0 : Int))] 1 0 ((1 : Int), (1 : Int))
     (by decide),
   spawn_loop_amended.2.2 goodRand2 rtype0 [((0 : Int), (0 : Int))] ((1 : Int), (1 : Int))
     1 0 witItem (by decide)⟩
